import Mathlib

/-
Verification of the goose tool-invocation security scanner
(crates/goose/src/security/{scanner.rs, mod.rs, prompt_ml_detector.rs} and
crates/goose/src/providers/gondola.rs) against its specification.

Modelling conventions:
  * Rust `f32`/`f64` confidence values are modelled as rationals (ℚ).  All
    operations performed on confidences by this code are comparisons and
    `max`, which are exact on the values involved, so no floating-point
    rounding is observable at that layer.  The one place where genuine
    IEEE-754 behaviour (overflow to infinity, NaN) matters — the two-class
    softmax in `MlDetector::scan` — is modelled separately by the type `F`
    below, which carries finite values, +infinity and NaN explicitly.
  * `anyhow::Result<T>` is modelled as `Except String T`.
  * The asynchronous classifier call is modelled by resolving the network
    nondeterminism into a function: an `MlDetector` is its (awaited)
    outcome per input text.
  * `patterns.rs` (PatternMatcher / RiskLevel) is not among the given
    sources; the parts of it this code relies on are modelled from the
    spec, and are marked `Modelled from the spec:` below.
-/

/- ===================== Basic string helpers ===================== -/

/-- Whitespace predicate used by `str::trim` (the ASCII fragment relevant
here; Rust trims Unicode whitespace, of which these are the cases that can
occur in the texts reasoned about). -/
def isWs (c : Char) : Bool :=
  c = ' ' || c = '\t' || c = '\n' || c = '\r'

/-- Model of Rust `str::trim`: drop leading and trailing whitespace. -/
def trimStr (s : String) : String :=
  String.mk (((s.data.dropWhile isWs).reverse.dropWhile isWs).reverse)

/-- Model of Rust `Vec::join(sep)` / `slice::join`. -/
def joinSep (sep : String) : List String → String
  | [] => ""
  | [x] => x
  | x :: y :: xs => x ++ sep ++ joinSep sep (y :: xs)

/-- Substring occurrence on character lists (used by the modelled
signature matcher; the spec allows "regular expression or equivalent"
detection rules and the modelled catalogue uses literal fragments). -/
def containsSub (pat : List Char) : List Char → Bool
  | [] => pat.isEmpty
  | c :: rest => List.isPrefixOf pat (c :: rest) || containsSub pat rest

/-- Model of Rust `format!("{:.2}", x)` for the nonnegative values this
code displays (rounding-mode differences from IEEE `{:.2}` arise only at
exact half-cent midpoints, which none of the displayed values occupy). -/
def fmt2 (q : ℚ) : String :=
  let n : Int := round (q * 100)
  let m : Nat := n.natAbs
  (if n < 0 then "-" else "") ++ Nat.repr (m / 100) ++ "." ++
    (if m % 100 < 10 then "0" ++ Nat.repr (m % 100) else Nat.repr (m % 100))

/- ===================== Risk levels and pattern matching ===================== -/

/-- Modelled from the spec: `RiskLevel` from patterns.rs — the ordered risk
tiers {Low, Medium, High, Critical} (spec §3). -/
inductive RiskLevel where
  | low
  | medium
  | high
  | critical
deriving DecidableEq, Repr

/-- Severity index giving the order Low < Medium < High < Critical. -/
def RiskLevel.sev : RiskLevel → Nat
  | .low => 0
  | .medium => 1
  | .high => 2
  | .critical => 3

/-- Modelled from the spec: the fixed tier→confidence mapping of patterns.rs
(spec §3: Low→0.3, Medium→0.6, High→0.85, Critical→0.95). -/
def RiskLevel.confidence_score : RiskLevel → ℚ
  | .low => 3/10
  | .medium => 3/5
  | .high => 17/20
  | .critical => 19/20

/-- Rust `{:?}` rendering of a RiskLevel. -/
def RiskLevel.debugStr : RiskLevel → String
  | .low => "Low"
  | .medium => "Medium"
  | .high => "High"
  | .critical => "Critical"

/-- Modelled from the spec: a threat signature of patterns.rs — a detection
rule (here a literal text fragment), a description and a risk tier. -/
structure ThreatPattern where
  pattern : String
  description : String
  risk_level : RiskLevel
deriving DecidableEq, Repr

/-- Modelled from the spec: a signature match — the signature that fired and
the matched substring. -/
structure PatternMatch where
  threat : ThreatPattern
  matched_text : String
deriving DecidableEq, Repr

/-- The pattern matcher, abstracted over its catalogue: `scan_text` returns
every signature match found in the input (patterns.rs is not among the
given sources, so the matcher is kept abstract in the theorems and a
concrete spec-modelled catalogue is supplied for witnesses). -/
structure PatternMatcher where
  scan_text : String → List PatternMatch

/-- Modelled from the spec: `get_max_risk_level` of patterns.rs — highest
tier among the matches, none if the list is empty (spec §4.1). -/
def get_max_risk_level (found : List PatternMatch) : Option RiskLevel :=
  found.foldl
    (fun acc m =>
      match acc with
      | none => some m.threat.risk_level
      | some r => some (if r.sev < m.threat.risk_level.sev then m.threat.risk_level else r))
    none

/-- Modelled from the spec: a small signature catalogue (spec §2, §4.1, §8
name destructive filesystem commands, remote-script execution, process
substitution, and lower-risk hits) used to instantiate witnesses. -/
def threatCatalogue : List ThreatPattern :=
  [ { pattern := "rm -rf", description := "Recursive file deletion", risk_level := .critical },
    { pattern := "| bash", description := "Remote script execution", risk_level := .critical },
    { pattern := "<(", description := "Shell process substitution", risk_level := .high },
    { pattern := "sudo ", description := "Privilege escalation", risk_level := .low } ]

/-- The concrete spec-modelled pattern matcher over `threatCatalogue`. -/
def defaultPatternMatcher : PatternMatcher where
  scan_text := fun text =>
    threatCatalogue.filterMap fun sig =>
      if containsSub sig.pattern.data text.data then
        some { threat := sig, matched_text := sig.pattern }
      else none

/-- The signature match the catalogue produces on `rm -rf` content. -/
def rmRfMatch : PatternMatch :=
  { threat := { pattern := "rm -rf", description := "Recursive file deletion", risk_level := RiskLevel.critical },
    matched_text := "rm -rf" }

/- ===================== JSON values and the content extractor ===================== -/

/-- The fragment of `serde_json::Value` the extractor walks.  A number is
carried as its decimal rendering (the code only ever calls
`Number::to_string` on it). -/
inductive JsonValue where
  | str (s : String)
  | num (rendered : String)
  | bool (b : Bool)
  | null
  | arr (items : List JsonValue)
  | obj (fields : List (String × JsonValue))

/-- The key denylist of `extract_text_from_value`: keys that may carry
commands are emitted as a labeled prefix before their value. -/
def commandKey (k : String) : Bool :=
  k = "command" || k = "script" || k = "code" || k = "shell" || k = "bash" || k = "cmd"

mutual
/-- `PromptInjectionScanner::extract_text_from_value` (scanner.rs 199-238):
depth-guarded recursive walk collecting text from a JSON value. -/
def extract_text_from_value (value : JsonValue) (content : List String) (depth : Nat) : List String :=
  if depth > 10 then content
  else
    match value with
    | .str s => if trimStr s = "" then content else content ++ [s]
    | .arr items => extractArr items content depth
    | .obj fields => extractObj fields content depth
    | .num n => content ++ [n]
    | .bool b => content ++ [if b then "true" else "false"]
    | .null => content

/-- The `Value::Array` arm of `extract_text_from_value`: fold over the
items, recursing at depth + 1. -/
def extractArr (items : List JsonValue) (content : List String) (depth : Nat) : List String :=
  match items with
  | [] => content
  | item :: rest => extractArr rest (extract_text_from_value item content (depth + 1)) depth

/-- The `Value::Object` arm of `extract_text_from_value`: emit a label for
command-bearing keys, then recurse into the value at depth + 1. -/
def extractObj (fields : List (String × JsonValue)) (content : List String) (depth : Nat) : List String :=
  match fields with
  | [] => content
  | (key, val) :: rest =>
    extractObj rest
      (extract_text_from_value val
        (if commandKey key then content ++ [key ++ ": "] else content) (depth + 1))
      depth
end

mutual
/-- Truncation of a JSON value to a given remaining depth budget: with
budget 0 the value is replaced by `null` (which contributes nothing to
extraction); otherwise scalars are kept and children lose one unit of
budget.  Used to state that content nested beyond the recursion cap
contributes nothing. -/
def prune (budget : Nat) (value : JsonValue) : JsonValue :=
  match budget, value with
  | 0, _ => .null
  | _ + 1, .str s => .str s
  | _ + 1, .num n => .num n
  | _ + 1, .bool b => .bool b
  | _ + 1, .null => .null
  | b + 1, .arr items => .arr (pruneArr b items)
  | b + 1, .obj fields => .obj (pruneObj b fields)

/-- `prune` mapped over array items. -/
def pruneArr (budget : Nat) (items : List JsonValue) : List JsonValue :=
  match items with
  | [] => []
  | item :: rest => prune budget item :: pruneArr budget rest

/-- `prune` mapped over object values (keys kept). -/
def pruneObj (budget : Nat) (fields : List (String × JsonValue)) : List (String × JsonValue) :=
  match fields with
  | [] => []
  | (key, val) :: rest => (key, prune budget val) :: pruneObj budget rest
end

/- ===================== Scanner (scanner.rs) ===================== -/

/-- `ScanResult` (scanner.rs 8-13). -/
structure ScanResult where
  is_malicious : Bool
  confidence : ℚ
  explanation : String
deriving DecidableEq, Repr

/-- The classifier adapter as seen by the scanner: its awaited outcome per
input text (`MlDetector::scan`, modelled at the response level by
`mlDetectorScan` below). -/
structure MlDetector where
  scan : String → Except String ℚ

/-- `PromptInjectionScanner` (scanner.rs 15-18). -/
structure PromptInjectionScanner where
  pattern_matcher : PatternMatcher
  ml_detector : Option MlDetector

/-- `PromptInjectionScanner::scan_with_patterns` (scanner.rs 95-108). -/
def scan_with_patterns (s : PromptInjectionScanner) (text : String) : ℚ :=
  let found := s.pattern_matcher.scan_text text
  if found.isEmpty then 0
  else ((get_max_risk_level found).getD RiskLevel.low).confidence_score

/-- One line of the pattern detail list in `combine_results`:
`format!("{}. {} (Risk: {:?}) - Found: '{}'", i + 1, description,
risk_level, matched_text.chars().take(50))`. -/
def patternDetailLine (i : Nat) (m : PatternMatch) : String :=
  Nat.repr (i + 1) ++ ". " ++ m.threat.description ++ " (Risk: " ++
    m.threat.risk_level.debugStr ++ ") - Found: '" ++
    String.mk (m.matched_text.data.take 50) ++ "'"

/-- The `pattern_summary` binding of `combine_results` (scanner.rs
135-162): up to three numbered match details under a heading, with a
`... and N more` trailer when more than three signatures fired. -/
def patternSummaryFor (s : PromptInjectionScanner) (text : String)
    (pattern_confidence : ℚ) : String :=
  let found := s.pattern_matcher.scan_text text
  let pattern_details := (found.take 3).enum.map fun pr => patternDetailLine pr.1 pr.2
  if found.length > 3 then
    "Pattern-based detection (confidence: " ++ fmt2 pattern_confidence ++ "):\n" ++
      joinSep "\n" pattern_details ++ "\n... and " ++
      Nat.repr (found.length - 3) ++ " more"
  else
    "Pattern-based detection (confidence: " ++ fmt2 pattern_confidence ++ "):\n" ++
      joinSep "\n" pattern_details

/-- The value built by `PromptInjectionScanner::combine_results`
(scanner.rs 111-182); the Rust method wraps this record in `Ok`. -/
def combine_results_val (s : PromptInjectionScanner) (text : String)
    (pattern_confidence : ℚ) (ml_confidence : Option ℚ) : ScanResult :=
  let confidence :=
    match ml_confidence with
    | some ml_conf => max pattern_confidence ml_conf
    | none => pattern_confidence
  let is_malicious := decide ((1:ℚ)/2 ≤ confidence)
  let explanation :=
    if confidence = 0 then "No security threats detected"
    else
      let parts : List String :=
        (if pattern_confidence > 0 then
          let found := s.pattern_matcher.scan_text text
          let pattern_details :=
            (found.take 3).enum.map fun p => patternDetailLine p.1 p.2
          let pattern_summary :=
            if found.length > 3 then
              "Pattern-based detection (confidence: " ++ fmt2 pattern_confidence ++ "):\n" ++
                joinSep "\n" pattern_details ++ "\n... and " ++
                Nat.repr (found.length - 3) ++ " more"
            else
              "Pattern-based detection (confidence: " ++ fmt2 pattern_confidence ++ "):\n" ++
                joinSep "\n" pattern_details
          [pattern_summary]
        else []) ++
        (match ml_confidence with
         | some ml_conf => ["ML-based detection (confidence: " ++ fmt2 ml_conf ++ ")"]
         | none => [])
      joinSep "\n\n" parts
  { is_malicious := is_malicious, confidence := confidence, explanation := explanation }

/-- `PromptInjectionScanner::combine_results` (scanner.rs 111-182): the
record above wrapped in `Ok` — the method is infallible. -/
def combine_results (s : PromptInjectionScanner) (text : String)
    (pattern_confidence : ℚ) (ml_confidence : Option ℚ) : Except String ScanResult :=
  Except.ok (combine_results_val s text pattern_confidence ml_confidence)

/-- The `ml_confidence` binding of `scan_for_dangerous_patterns`
(scanner.rs 78-88): the classifier outcome on success, `none` when no
detector is configured or its call failed (failure is logged and
swallowed). -/
def ml_confidence_of (s : PromptInjectionScanner) (text : String) : Option ℚ :=
  match s.ml_detector with
  | some ml_detector =>
    match ml_detector.scan text with
    | .ok conf => some conf
    | .error _ => none
  | none => none

/-- `PromptInjectionScanner::scan_for_dangerous_patterns` (scanner.rs
73-92). -/
def scan_for_dangerous_patterns (s : PromptInjectionScanner) (text : String) :
    Except String ScanResult :=
  let pattern_confidence := scan_with_patterns s text
  let ml_confidence := ml_confidence_of s text
  combine_results s text pattern_confidence ml_confidence

/-- The `ScanResult` that `scan_for_dangerous_patterns` wraps in `Ok`. -/
def scan_val (s : PromptInjectionScanner) (text : String) : ScanResult :=
  combine_results_val s text (scan_with_patterns s text) (ml_confidence_of s text)

/-- `rmcp::model::CallToolRequestParam` as consumed here: a tool name and
an optional JSON-object argument payload. -/
structure CallToolRequestParam where
  name : String
  arguments : Option (List (String × JsonValue))

/-- `serde_json::Value::from(arguments.clone())`: `None` becomes `Null`,
`Some(map)` the object. -/
def argumentsValue : Option (List (String × JsonValue)) → JsonValue
  | none => .null
  | some kvs => .obj kvs

/-- `PromptInjectionScanner::extract_tool_content` (scanner.rs 185-195). -/
def extract_tool_content (tool_call : CallToolRequestParam) : String :=
  let content := ["Tool: " ++ tool_call.name]
  let content := extract_text_from_value (argumentsValue tool_call.arguments) content 0
  joinSep "\n" content

/-- Conversation messages: carried through `analyze_tool_call_with_context`
but unused by it (the context parameter is a reserved Phase-2 extension
point). -/
def Message : Type := Unit

/-- `PromptInjectionScanner::analyze_tool_call_with_context` (scanner.rs
51-60): extracts the tool content and scans it; the message context is
ignored. -/
def analyze_tool_call_with_context (s : PromptInjectionScanner)
    (tool_call : CallToolRequestParam) (_messages : List Message) :
    Except String ScanResult :=
  scan_for_dangerous_patterns s (extract_tool_content tool_call)

/- ===================== Configuration (the named values the core reads) ===================== -/

/-- The configuration surface consumed by the core: each field is the
result of `Config::get_param` for the named key (`none` = the lookup
failed / the key is unset). -/
structure Config where
  security_prompt_enabled : Option Bool
  security_prompt_ml_enabled : Option Bool
  security_prompt_threshold : Option ℚ
deriving DecidableEq, Repr

/-- `PromptInjectionScanner::get_threshold_from_config` (scanner.rs 38-47):
the configured `security_prompt_threshold`, defaulting to 0.7. -/
def get_threshold_from_config (cfg : Config) : ℚ :=
  match cfg.security_prompt_threshold with
  | some threshold => threshold
  | none => 7/10

/-- `SecurityManager::is_prompt_injection_detection_enabled` (mod.rs
35-42): the `security_prompt_enabled` flag, defaulting to false. -/
def is_prompt_injection_detection_enabled (cfg : Config) : Bool :=
  cfg.security_prompt_enabled.getD false

/- ===================== Session orchestrator (mod.rs) ===================== -/

/-- `ToolRequest` as consumed by `analyze_tool_requests`: an id and the
upstream parse result of the tool-call payload. -/
structure ToolRequest where
  id : String
  tool_call : Except String CallToolRequestParam

/-- `SecurityResult` (mod.rs 17-25). -/
structure SecurityResult where
  is_malicious : Bool
  confidence : ℚ
  explanation : String
  should_ask_user : Bool
  finding_id : String
  tool_request_id : String
deriving DecidableEq, Repr

/-- `format!("SEC-{}", Uuid::new_v4().simple())`: `Uuid::new_v4` is
modelled as an opaque fresh token indexed by a per-batch generation
counter; only the freshness (pairwise distinctness) of generated
identifiers is relied upon. -/
def mkFindingId (k : Nat) : String :=
  "SEC-" ++ String.mk (List.replicate k 'f')

/-- The per-request loop of `SecurityManager::analyze_tool_requests`
(mod.rs 108-158): skip requests whose payload failed to parse, scan the
rest, generate a finding id for each malicious verdict, and keep exactly
the verdicts whose confidence strictly exceeds the configured threshold
(below-or-equal verdicts are logged and dropped). -/
def analyzeLoop (cfg : Config) (s : PromptInjectionScanner) (messages : List Message) :
    List ToolRequest → Nat → Except String (List SecurityResult)
  | [], _ => .ok []
  | tool_request :: rest, k =>
    match tool_request.tool_call with
    | .error _ => analyzeLoop cfg s messages rest k
    | .ok tool_call =>
      match analyze_tool_call_with_context s tool_call messages with
      | .error e => .error e
      | .ok analysis_result =>
        let config_threshold := get_threshold_from_config cfg
        if analysis_result.is_malicious then
          let finding_id := mkFindingId k
          if analysis_result.confidence > config_threshold then
            match analyzeLoop cfg s messages rest (k + 1) with
            | .error e => .error e
            | .ok results =>
              .ok ({ is_malicious := analysis_result.is_malicious,
                     confidence := analysis_result.confidence,
                     explanation := analysis_result.explanation,
                     should_ask_user := true,
                     finding_id := finding_id,
                     tool_request_id := tool_request.id } :: results)
          else analyzeLoop cfg s messages rest (k + 1)
        else analyzeLoop cfg s messages rest k

/-- `SecurityManager::analyze_tool_requests` (mod.rs 55-166): empty result
when scanning is disabled, otherwise the per-request loop.  The lazily
initialized scanner is passed explicitly (`OnceLock` construction is a
concurrency concern outside the shallow embedding); the disabled branch
returns before the scanner is ever touched, which the theorems express as
independence from `s`. -/
def analyze_tool_requests (cfg : Config) (s : PromptInjectionScanner)
    (tool_requests : List ToolRequest) (messages : List Message) :
    Except String (List SecurityResult) :=
  if is_prompt_injection_detection_enabled cfg then
    analyzeLoop cfg s messages tool_requests 0
  else .ok []

/-- The findings list as the spec words it (refinement comparand for the
orchestrator claim): one entry per tool call whose payload parsed
successfully and whose verdict is malicious with confidence strictly above
the configured threshold, in input order, carrying the originating
tool-request id and should_ask_user = true.  The freshly generated finding
identifier is stated separately (as pairwise distinctness). -/
def findingsSpec (cfg : Config) (s : PromptInjectionScanner) (reqs : List ToolRequest) :
    List (String × Bool × ℚ × String × Bool) :=
  reqs.filterMap fun tr =>
    match tr.tool_call with
    | .error _ => none
    | .ok tc =>
      let verdict := scan_val s (extract_tool_content tc)
      if verdict.is_malicious && decide (get_threshold_from_config cfg < verdict.confidence) then
        some (tr.id, verdict.is_malicious, verdict.confidence, verdict.explanation, true)
      else none

/- ===================== Classifier backend (gondola.rs, prompt_ml_detector.rs) ===================== -/

/-- `DoubleListValue` (gondola.rs 43-46); the parsed doubles are finite by
construction (JSON numbers). -/
structure DoubleListValue where
  double_values : List ℚ
deriving DecidableEq, Repr

/-- `ResponseItem` (gondola.rs 37-41). -/
structure ResponseItem where
  double_list_value : Option DoubleListValue
deriving DecidableEq, Repr

/-- `BatchInferResponse` (gondola.rs 29-35). -/
structure BatchInferResponse where
  model : String
  version : String
  occurred_at : String
  response_items : List ResponseItem
deriving DecidableEq, Repr

/-- The observable outcome of the HTTP exchange inside
`GondolaProvider::batch_infer`: transport failure (unreachable backend,
timeout) or a response with a status code and body. -/
inductive GondolaOutcome where
  | netFailure (msg : String)
  | httpResponse (status : Nat) (body : String)
deriving DecidableEq, Repr

/-- `reqwest::StatusCode::is_success`: 200..=299. -/
def statusIsSuccess (status : Nat) : Bool :=
  decide (200 ≤ status) && decide (status ≤ 299)

/-- `GondolaProvider::batch_infer` (gondola.rs 88-140) from the response
side: transport failure propagates as an error, a non-success status is an
error, an unparsable body (`parse body = none`, abstracting
`serde_json::from_str`) is an error, otherwise the parsed response. -/
def batch_infer (parse : String → Option BatchInferResponse) :
    GondolaOutcome → Except String BatchInferResponse
  | .netFailure msg => .error msg
  | .httpResponse status body =>
    if statusIsSuccess status then
      match parse body with
      | some response => .ok response
      | none => .error "invalid response body"
    else .error ("Gondola request failed with status " ++ Nat.repr status)

/-- IEEE-754 double outcomes relevant to the softmax: a finite value (its
magnitude abstracted as a rational), +infinity, or NaN.  Negative infinity
cannot arise in the expressions modelled. -/
inductive F where
  | fin (q : ℚ)
  | inf
  | nan
deriving DecidableEq, Repr

/-- Finiteness of a modelled double. -/
def F.isFinite : F → Bool
  | .fin _ => true
  | _ => false

/-- `f64::exp` overflows to +infinity at arguments of 710 and above (the
true overflow bound is ≈ 709.78; every argument reasoned about is far from
the boundary).  In-range results are abstracted by the parameter `e`. -/
def fexp (e : ℚ → ℚ) : F → F
  | .nan => .nan
  | .inf => .inf
  | .fin q => if (710:ℚ) ≤ q then .inf else .fin (e q)

/-- IEEE-754 addition on the modelled doubles (finite addition kept exact;
rounding is immaterial to the claims proved). -/
def fadd : F → F → F
  | .nan, _ => .nan
  | _, .nan => .nan
  | .inf, _ => .inf
  | _, .inf => .inf
  | .fin a, .fin b => .fin (a + b)

/-- IEEE-754 division on the modelled doubles: ∞/∞ and 0/0 are NaN. -/
def fdiv : F → F → F
  | .nan, _ => .nan
  | _, .nan => .nan
  | .inf, .inf => .nan
  | .inf, .fin _ => .inf
  | .fin _, .inf => .fin 0
  | .fin a, .fin b => if b = 0 then (if a = 0 then .nan else .inf) else .fin (a / b)

/-- The score conversion of `MlDetector::scan` (prompt_ml_detector.rs
112-115) exactly as written: `exp(s0)`, `exp(s1)` with no subtraction of
the maximum, then `exp(s1) / (exp(s0) + exp(s1))`. -/
def softmaxMalicious (e : ℚ → ℚ) (s0 s1 : ℚ) : F :=
  let exp_safe := fexp e (.fin s0)
  let exp_malicious := fexp e (.fin s1)
  let sum := fadd exp_safe exp_malicious
  fdiv exp_malicious sum

/-- `MlDetector::scan` (prompt_ml_detector.rs 78-127) from the response
side: propagate a batch_infer failure, fail on an empty response-item
list, on a missing `double_list_value`, or on fewer than two scores;
otherwise convert the first two scores via `softmaxMalicious`. -/
def mlDetectorScan (e : ℚ → ℚ) (parse : String → Option BatchInferResponse)
    (outcome : GondolaOutcome) : Except String F :=
  match batch_infer parse outcome with
  | .error msg => .error ("ML inference failed: " ++ msg)
  | .ok response =>
    match response.response_items.head? with
    | none => .error "No response items from ML model"
    | some item =>
      match item.double_list_value with
      | none => .error "No logits in response"
      | some double_list =>
        match double_list.double_values with
        | s0 :: s1 :: _ => .ok (softmaxMalicious e s0 s1)
        | _ => .error "Expected 2 logits (safe, malicious)"

/- ===================== Concrete instances used by witnesses ===================== -/

/-- A pattern-only scanner over the modelled catalogue. -/
def patternOnlyScanner : PromptInjectionScanner :=
  { pattern_matcher := defaultPatternMatcher, ml_detector := none }

/-- A scanner whose classifier deterministically reports confidence 0.6. -/
def mlScannerSixTenths : PromptInjectionScanner :=
  { pattern_matcher := defaultPatternMatcher,
    ml_detector := some { scan := fun _ => .ok (3/5) } }

/-- A scanner whose classifier deterministically reports confidence 0.3. -/
def mlScannerThreeTenths : PromptInjectionScanner :=
  { pattern_matcher := defaultPatternMatcher,
    ml_detector := some { scan := fun _ => .ok (3/10) } }

/-- A configuration with every key unset: scanning disabled, default
threshold 0.7. -/
def cfgUnset : Config :=
  { security_prompt_enabled := none,
    security_prompt_ml_enabled := none,
    security_prompt_threshold := none }

/-- A configuration with scanning enabled and the threshold left at its
default. -/
def cfgEnabledDefault : Config :=
  { security_prompt_enabled := some true,
    security_prompt_ml_enabled := none,
    security_prompt_threshold := none }

/-- A tool request proposing `rm -rf /` through a shell command argument. -/
def rmRfRequest : ToolRequest :=
  { id := "req-1",
    tool_call := .ok { name := "shell", arguments := some [("command", .str "rm -rf /")] } }

/-- A benign tool request. -/
def lsRequest : ToolRequest :=
  { id := "req-2",
    tool_call := .ok { name := "shell", arguments := some [("command", .str "echo hi")] } }

/-- A Gondola response whose two logits are (1000.0, 1000.1) — the
numerical-stability probe of the spec. -/
def overflowResponse : BatchInferResponse :=
  { model := "deberta-prompt-injection-v2",
    version := "gmv-zve9abhxe9s7fq1zep5dxd807",
    occurred_at := "0",
    response_items := [ { double_list_value := some { double_values := [1000, 10001/10] } } ] }

/-- The single finding the end-to-end `rm -rf /` scenario produces (spec
§8): malicious at Critical confidence 0.95, above the default threshold,
flagged for user review, carrying the first generated finding id and the
originating request id. -/
def rmRfFinding : SecurityResult :=
  { is_malicious := true,
    confidence := 19/20,
    explanation := "Pattern-based detection (confidence: 0.95):\n1. Recursive file deletion (Risk: Critical) - Found: 'rm -rf'",
    should_ask_user := true,
    finding_id := "SEC-",
    tool_request_id := "req-1" }

/- ===================== Basic facts about the scanner pipeline ===================== -/

/-- `combine_results` is infallible: it returns `Ok` of the combined
record. -/
theorem combine_results_eq (s : PromptInjectionScanner) (text : String)
    (p : ℚ) (ml : Option ℚ) :
    combine_results s text p ml = Except.ok (combine_results_val s text p ml) := rfl

/-- `scan_for_dangerous_patterns` is infallible: classifier failures are
absorbed before combining. -/
theorem scan_eq_ok (s : PromptInjectionScanner) (text : String) :
    scan_for_dangerous_patterns s text = Except.ok (scan_val s text) := rfl

/-- `analyze_tool_call_with_context` scans the extracted tool content. -/
theorem analyze_ctx_eq_ok (s : PromptInjectionScanner) (tc : CallToolRequestParam)
    (msgs : List Message) :
    analyze_tool_call_with_context s tc msgs = Except.ok (scan_val s (extract_tool_content tc)) := rfl

/-- The fused confidence is the maximum of the two signals (the pattern
confidence alone when the classifier did not contribute). -/
theorem combine_val_confidence (s : PromptInjectionScanner) (text : String)
    (p : ℚ) (ml : Option ℚ) :
    (combine_results_val s text p ml).confidence =
      (match ml with
       | some m => max p m
       | none => p) := rfl

/-- The malicious flag compares the fused confidence against the fixed
constant 0.5. -/
theorem combine_val_malicious (s : PromptInjectionScanner) (text : String)
    (p : ℚ) (ml : Option ℚ) :
    (combine_results_val s text p ml).is_malicious =
      decide ((1:ℚ)/2 ≤ (combine_results_val s text p ml).confidence) := rfl
/-- C1.  The claim states the score conversion is a numerically stable
two-class softmax (max subtracted before exponentiating) and that raw
scores (1000.0, 1000.1) therefore yield a finite probability in (0,1).
The code (prompt_ml_detector.rs 112-115) exponentiates the raw scores
directly; at (1000.0, 1000.1) both exponentials overflow the double range
to +infinity — whatever the in-range behaviour `e` of `exp` is — and the
returned confidence is ∞/∞ = NaN, which is not finite and not in (0,1). -/
theorem c1_softmax_overflow_nan (e : ℚ → ℚ) :
    softmaxMalicious e 1000 (10001/10) = F.nan ∧
    mlDetectorScan e (fun _ => some overflowResponse) (GondolaOutcome.httpResponse 200 "") =
      Except.ok F.nan ∧
    F.nan.isFinite = false := by
  have h1 : softmaxMalicious e 1000 (10001/10) = F.nan := by
    simp only [softmaxMalicious, fexp]
    rw [if_pos (by norm_num : (710:ℚ) ≤ 1000), if_pos (by norm_num : (710:ℚ) ≤ 10001/10)]
    rfl
  have h2 : batch_infer (fun _ => some overflowResponse) (GondolaOutcome.httpResponse 200 "") =
      Except.ok overflowResponse := by
    simp [batch_infer, statusIsSuccess]
  refine ⟨h1, ?_, rfl⟩
  unfold mlDetectorScan
  rw [h2]
  simp [overflowResponse, h1]

/-- C4.  If the configured classifier's call fails, the scan still returns
a verdict (no error is propagated) and that verdict's confidence equals
the pattern-only confidence for the same text. -/
theorem c4_classifier_failure_degrades (pm : PatternMatcher) (err : String) (text : String) :
    ∃ r, scan_for_dangerous_patterns ⟨pm, some ⟨fun _ => Except.error err⟩⟩ text = Except.ok r ∧
      r.confidence = scan_with_patterns ⟨pm, none⟩ text ∧
      (scan_for_dangerous_patterns ⟨pm, none⟩ text).map ScanResult.confidence =
        Except.ok r.confidence :=
  ⟨_, rfl, rfl, rfl⟩

/-- C5.  The fused confidence is the pure maximum of the pattern signal
and the classifier signal (the pattern signal alone when the classifier
did not contribute): it never exceeds the maximum of the two and never
falls below either one alone. -/
theorem c5_fusion_pure_max (s : PromptInjectionScanner) (text : String)
    (p : ℚ) (ml : Option ℚ) (r : ScanResult)
    (h : combine_results s text p ml = Except.ok r) :
    (∀ m, ml = some m → r.confidence = max p m) ∧
    (ml = none → r.confidence = p) ∧
    p ≤ r.confidence ∧
    (∀ m, ml = some m → m ≤ r.confidence) ∧
    r.confidence ≤ max p (ml.getD p) := by
  have hr : r = combine_results_val s text p ml := (Except.ok.inj h).symm
  subst hr
  cases ml with
  | none =>
    have hc : (combine_results_val s text p none).confidence = p := rfl
    refine ⟨?_, ?_, ?_, ?_, ?_⟩
    · intro m hm; simp at hm
    · intro _; exact hc
    · rw [hc]
    · intro m hm; simp at hm
    · rw [hc]; exact le_max_left _ _
  | some m =>
    have hc : (combine_results_val s text p (some m)).confidence = max p m := rfl
    refine ⟨?_, ?_, ?_, ?_, ?_⟩
    · intro m' hm'
      rw [Option.some.injEq] at hm'
      rw [← hm']; exact hc
    · intro hn; simp at hn
    · rw [hc]; exact le_max_left _ _
    · intro m' hm'
      rw [Option.some.injEq] at hm'
      rw [← hm', hc]; exact le_max_right _ _
    · rw [hc]; exact le_of_eq rfl

/-- C8.  The response-side classifier adapter fails (with a returned
error, never a panic — it is a total function into `Except`) in exactly
these cases: transport failure, non-success HTTP status, unparsable body,
zero response items, missing score list, or fewer than two scores; on a
well-formed response carrying at least two scores it succeeds with the
softmax of the first two. -/
theorem c8_error_cases_exact (e : ℚ → ℚ) (parse : String → Option BatchInferResponse)
    (outcome : GondolaOutcome) :
    ((∃ v, mlDetectorScan e parse outcome = Except.ok v) ↔
      ∃ status body response item dl s0 s1 rest,
        outcome = GondolaOutcome.httpResponse status body ∧
        statusIsSuccess status = true ∧
        parse body = some response ∧
        response.response_items.head? = some item ∧
        item.double_list_value = some dl ∧
        dl.double_values = s0 :: s1 :: rest) ∧
    (∀ status body response item dl s0 s1 rest,
        outcome = GondolaOutcome.httpResponse status body →
        statusIsSuccess status = true →
        parse body = some response →
        response.response_items.head? = some item →
        item.double_list_value = some dl →
        dl.double_values = s0 :: s1 :: rest →
        mlDetectorScan e parse outcome = Except.ok (softmaxMalicious e s0 s1)) := by
  constructor
  · cases outcome with
    | netFailure msg =>
      constructor
      · rintro ⟨v, hv⟩
        simp [mlDetectorScan, batch_infer] at hv
      · rintro ⟨status, body, response, item, dl, s0, s1, rest, heq, _⟩
        cases heq
    | httpResponse status body =>
      by_cases hs : statusIsSuccess status = true
      · cases hp : parse body with
        | none =>
          constructor
          · rintro ⟨v, hv⟩
            simp [mlDetectorScan, batch_infer, hs, hp] at hv
          · rintro ⟨status', body', response, item, dl, s0, s1, rest, heq, _, hp', _⟩
            cases heq
            rw [hp] at hp'
            cases hp'
        | some response =>
          cases hh : response.response_items.head? with
          | none =>
            constructor
            · rintro ⟨v, hv⟩
              simp [mlDetectorScan, batch_infer, hs, hp, hh] at hv
            · rintro ⟨status', body', response', item, dl, s0, s1, rest, heq, _, hp', hh', _⟩
              cases heq
              rw [hp] at hp'; cases hp'
              rw [hh] at hh'; cases hh'
          | some item =>
            cases hd : item.double_list_value with
            | none =>
              constructor
              · rintro ⟨v, hv⟩
                simp [mlDetectorScan, batch_infer, hs, hp, hh, hd] at hv
              · rintro ⟨status', body', response', item', dl, s0, s1, rest, heq, _, hp', hh', hd', _⟩
                cases heq
                rw [hp] at hp'; cases hp'
                rw [hh] at hh'; cases hh'
                rw [hd] at hd'; cases hd'
            | some dl =>
              cases hl : dl.double_values with
              | nil =>
                constructor
                · rintro ⟨v, hv⟩
                  simp [mlDetectorScan, batch_infer, hs, hp, hh, hd, hl] at hv
                · rintro ⟨status', body', response', item', dl', s0, s1, rest, heq, _, hp', hh', hd', hl'⟩
                  cases heq
                  rw [hp] at hp'; cases hp'
                  rw [hh] at hh'; cases hh'
                  rw [hd] at hd'; cases hd'
                  rw [hl] at hl'
                  simp at hl'
              | cons s0 tl =>
                cases htl : tl with
                | nil =>
                  subst htl
                  constructor
                  · rintro ⟨v, hv⟩
                    simp [mlDetectorScan, batch_infer, hs, hp, hh, hd, hl] at hv
                  · rintro ⟨status', body', response', item', dl', s0', s1', rest', heq, _, hp', hh', hd', hl'⟩
                    cases heq
                    rw [hp] at hp'; cases hp'
                    rw [hh] at hh'; cases hh'
                    rw [hd] at hd'; cases hd'
                    rw [hl] at hl'
                    simp at hl'
                | cons s1 rest =>
                  subst htl
                  constructor
                  · intro _
                    exact ⟨status, body, response, item, dl, s0, s1, rest, rfl, hs, hp, hh, hd, hl⟩
                  · intro _
                    refine ⟨softmaxMalicious e s0 s1, ?_⟩
                    simp [mlDetectorScan, batch_infer, hs, hp, hh, hd, hl]
      · constructor
        · rintro ⟨v, hv⟩
          simp [mlDetectorScan, batch_infer, hs] at hv
        · rintro ⟨status', body', response, item, dl, s0, s1, rest, heq, hs', _⟩
          cases heq
          exact (hs hs').elim
  · intro status body response item dl s0 s1 rest hAPI hs hp hh hd hl
    cases hAPI
    simp [mlDetectorScan, batch_infer, hs, hp, hh, hd, hl]

/- ===================== Explanation-shape lemmas ===================== -/

/-- The head character of a string survives appending on the right. -/
theorem head_append (a b : String) (c : Char) (h : a.data.head? = some c) :
    (a ++ b).data.head? = some c := by
  have hd : (a ++ b).data = a.data ++ b.data := rfl
  rw [hd]
  cases hx : a.data with
  | nil => rw [hx] at h; simp at h
  | cons x xs =>
    rw [hx] at h
    simpa using h

/-- A string whose head character is not `N` is not the fixed benign
message. -/
theorem ne_fixed_of_head (x : String) (c : Char) (hc : c ≠ 'N')
    (h : x.data.head? = some c) : x ≠ "No security threats detected" := by
  intro he
  rw [he] at h
  have hN : ("No security threats detected" : String).data.head? = some 'N' := rfl
  rw [hN] at h
  exact hc (Option.some.inj h.symm)

/-- The pattern summary always opens with the literal heading (first
character `P`), in both its more-than-three and at-most-three forms. -/
theorem patternSummary_head (s : PromptInjectionScanner) (text : String) (p : ℚ) :
    (patternSummaryFor s text p).data.head? = some 'P' := by
  simp only [patternSummaryFor]
  by_cases hlen : (s.pattern_matcher.scan_text text).length > 3
  · rw [if_pos hlen]
    repeat (first | rfl | apply head_append)
  · rw [if_neg hlen]
    repeat (first | rfl | apply head_append)

/-- Characterization of the explanation built by `combine_results`: the
fixed benign message exactly when the fused confidence is 0, otherwise the
joined pattern/classifier parts. -/
theorem combine_val_explanation_eq (s : PromptInjectionScanner) (text : String)
    (p : ℚ) (ml : Option ℚ) :
    (combine_results_val s text p ml).explanation =
      (if (combine_results_val s text p ml).confidence = 0 then
        "No security threats detected"
      else
        joinSep "\n\n"
          ((if p > 0 then [patternSummaryFor s text p] else []) ++
           (match ml with
            | some ml_conf => ["ML-based detection (confidence: " ++ fmt2 ml_conf ++ ")"]
            | none => []))) := rfl

/-- Whenever the fused confidence is nonzero, the explanation is not the
fixed benign message (it opens with a pattern or classifier heading, or is
empty — never the fixed message). -/
theorem combine_val_explanation_ne (s : PromptInjectionScanner) (text : String)
    (p : ℚ) (ml : Option ℚ)
    (h : (combine_results_val s text p ml).confidence ≠ 0) :
    (combine_results_val s text p ml).explanation ≠ "No security threats detected" := by
  rw [combine_val_explanation_eq, if_neg h]
  by_cases hp : p > 0
  · rw [if_pos hp]
    cases ml with
    | none =>
      show joinSep "\n\n" [patternSummaryFor s text p] ≠ _
      simp only [joinSep]
      exact ne_fixed_of_head _ 'P' (by decide) (patternSummary_head s text p)
    | some m =>
      show joinSep "\n\n" [patternSummaryFor s text p,
        "ML-based detection (confidence: " ++ fmt2 m ++ ")"] ≠ _
      simp only [joinSep]
      exact ne_fixed_of_head _ 'P' (by decide)
        (head_append _ _ _ (head_append _ _ _ (patternSummary_head s text p)))
  · rw [if_neg hp]
    cases ml with
    | none =>
      show joinSep "\n\n" [] ≠ _
      simp only [joinSep]
      decide
    | some m =>
      show joinSep "\n\n" ["ML-based detection (confidence: " ++ fmt2 m ++ ")"] ≠ _
      simp only [joinSep]
      refine ne_fixed_of_head _ 'M' (by decide) ?_
      repeat (first | rfl | apply head_append)

/- ===================== Concrete scan evaluations ===================== -/

/-- The modelled catalogue finds nothing in the text `hello`. -/
theorem scan_text_hello : defaultPatternMatcher.scan_text "hello" = [] := by decide

/-- With no signature matches the pattern confidence is 0. -/
theorem scan_with_patterns_eq_zero (s : PromptInjectionScanner) (text : String)
    (h : s.pattern_matcher.scan_text text = []) : scan_with_patterns s text = 0 := by
  unfold scan_with_patterns
  rw [h]
  rfl

/-- The scan confidence, written through `ml_confidence_of`. -/
theorem scan_val_conf (s : PromptInjectionScanner) (text : String) :
    (scan_val s text).confidence =
      (match ml_confidence_of s text with
       | some m => max (scan_with_patterns s text) m
       | none => scan_with_patterns s text) := rfl

/-- Confidence of the 0.6-classifier scanner on `hello`. -/
theorem scan_val_conf_sixtenths : (scan_val mlScannerSixTenths "hello").confidence = 3/5 := by
  have hml : ml_confidence_of mlScannerSixTenths "hello" = some (3/5) := rfl
  have hp : scan_with_patterns mlScannerSixTenths "hello" = 0 :=
    scan_with_patterns_eq_zero _ _ scan_text_hello
  rw [scan_val_conf, hml]
  show max (scan_with_patterns mlScannerSixTenths "hello") (3/5) = 3/5
  rw [hp]
  norm_num

/-- Confidence of the 0.3-classifier scanner on `hello`. -/
theorem scan_val_conf_threetenths : (scan_val mlScannerThreeTenths "hello").confidence = 3/10 := by
  have hml : ml_confidence_of mlScannerThreeTenths "hello" = some (3/10) := rfl
  have hp : scan_with_patterns mlScannerThreeTenths "hello" = 0 :=
    scan_with_patterns_eq_zero _ _ scan_text_hello
  rw [scan_val_conf, hml]
  show max (scan_with_patterns mlScannerThreeTenths "hello") (3/10) = 3/10
  rw [hp]
  norm_num

/-- The malicious flag of any scan verdict, as a decide of the fixed-0.5
comparison. -/
theorem scan_val_malicious (s : PromptInjectionScanner) (text : String) :
    (scan_val s text).is_malicious = decide ((1:ℚ)/2 ≤ (scan_val s text).confidence) := rfl

/- ===================== C2 ===================== -/

/-- C2 (counterexample).  The claim says the malicious flag is
`fused_confidence >= threshold` for the externally configured threshold.
With every configuration key unset the configured threshold is 0.7, yet a
verdict with fused confidence 0.6 is flagged malicious: the flag is not
computed against the configured threshold. -/
theorem c2_counterexample_threshold_ignored :
    get_threshold_from_config cfgUnset = 7/10 ∧
    (scan_val mlScannerSixTenths "hello").is_malicious = true ∧
    ¬ (get_threshold_from_config cfgUnset ≤ (scan_val mlScannerSixTenths "hello").confidence) ∧
    scan_for_dangerous_patterns mlScannerSixTenths "hello" =
      Except.ok (scan_val mlScannerSixTenths "hello") := by
  refine ⟨rfl, ?_, ?_, rfl⟩
  · rw [scan_val_malicious, scan_val_conf_sixtenths]
    simp only [decide_eq_true_eq]
    norm_num
  · rw [scan_val_conf_sixtenths]
    show ¬ ((7:ℚ)/10 ≤ 3/5)
    norm_num

/-- C2 (amended).  For every scanned text, the verdict's malicious flag is
computed as `fused_confidence >= 0.5`, a fixed constant independent of the
configured threshold (the configured threshold is only applied later, in
`analyze_tool_requests`, to decide which malicious verdicts become
findings). -/
theorem c2_amended_fixed_half (s : PromptInjectionScanner) (text : String) (r : ScanResult)
    (h : scan_for_dangerous_patterns s text = Except.ok r) :
    r.is_malicious = true ↔ (1:ℚ)/2 ≤ r.confidence := by
  have hr : r = scan_val s text := (Except.ok.inj h).symm
  subst hr
  rw [scan_val_malicious]
  simp [decide_eq_true_eq]

/-- Witness for C2's amended theorem at a concrete scanner and text. -/
theorem c2_amended_witness :
    (scan_val mlScannerSixTenths "hello").is_malicious = true ↔
      (1:ℚ)/2 ≤ (scan_val mlScannerSixTenths "hello").confidence :=
  c2_amended_fixed_half mlScannerSixTenths "hello" _ rfl

/- ===================== C7 ===================== -/

/-- C7 (counterexample).  The claim says benign verdicts carry the fixed
"no threats detected" message.  A classifier confidence of 0.3 with no
signature matches yields a benign verdict (0.3 < 0.5) whose explanation is
the detailed classifier enumeration, not the fixed message. -/
theorem c7_counterexample_benign_detailed :
    (scan_val mlScannerThreeTenths "hello").is_malicious = false ∧
    (scan_val mlScannerThreeTenths "hello").explanation ≠ "No security threats detected" ∧
    scan_for_dangerous_patterns mlScannerThreeTenths "hello" =
      Except.ok (scan_val mlScannerThreeTenths "hello") := by
  refine ⟨?_, ?_, rfl⟩
  · rw [scan_val_malicious, scan_val_conf_threetenths]
    simp only [decide_eq_false_iff_not]
    norm_num
  · have hc : (scan_val mlScannerThreeTenths "hello").confidence ≠ 0 := by
      rw [scan_val_conf_threetenths]
      norm_num
    exact combine_val_explanation_ne mlScannerThreeTenths "hello"
      (scan_with_patterns mlScannerThreeTenths "hello")
      (ml_confidence_of mlScannerThreeTenths "hello") hc

/-- C7 (amended).  The fixed "no threats detected" message is used exactly
when the fused confidence equals 0; any verdict with nonzero confidence —
malicious or benign — carries the detailed enumeration. -/
theorem c7_fixed_message_iff_zero (s : PromptInjectionScanner) (text : String)
    (p : ℚ) (ml : Option ℚ) (r : ScanResult)
    (h : combine_results s text p ml = Except.ok r) :
    r.explanation = "No security threats detected" ↔ r.confidence = 0 := by
  have hr : r = combine_results_val s text p ml := (Except.ok.inj h).symm
  subst hr
  constructor
  · intro he
    by_contra hne
    exact combine_val_explanation_ne s text p ml hne he
  · intro hz
    rw [combine_val_explanation_eq, if_pos hz]

/-- Witness for C7's amended theorem at a concrete scanner and text. -/
theorem c7_amended_witness :
    (scan_val patternOnlyScanner "hello").explanation = "No security threats detected" ↔
      (scan_val patternOnlyScanner "hello").confidence = 0 :=
  c7_fixed_message_iff_zero patternOnlyScanner "hello"
    (scan_with_patterns patternOnlyScanner "hello")
    (ml_confidence_of patternOnlyScanner "hello")
    (scan_val patternOnlyScanner "hello") rfl

/- ===================== C9: content extraction ===================== -/

mutual
/-- Truncating a value to the remaining depth budget does not change
extraction: nodes at depth d are processed only when d ≤ 10, and `prune`
replaces exactly the nodes beyond that horizon with `null`. -/
theorem extract_prune_eq (value : JsonValue) :
    ∀ (content : List String) (b d : Nat), d + b = 11 →
      extract_text_from_value (prune b value) content d =
        extract_text_from_value value content d := by
  intro content b d h
  cases b with
  | zero =>
    have hd : d = 11 := by omega
    subst hd
    have h1 : ∀ v : JsonValue, extract_text_from_value v content 11 = content := by
      intro v
      unfold extract_text_from_value
      rw [if_pos (by norm_num)]
    have hp : prune 0 value = JsonValue.null := by cases value <;> simp [prune]
    rw [hp, h1, h1]
  | succ b' =>
    have hd : ¬ d > 10 := by omega
    cases value with
    | str s => rfl
    | num n => rfl
    | bool bb => rfl
    | null => rfl
    | arr items =>
      show extract_text_from_value (JsonValue.arr (pruneArr b' items)) content d = _
      unfold extract_text_from_value
      rw [if_neg hd, if_neg hd]
      exact extractArr_prune_eq items content b' d (by omega)
    | obj fields =>
      show extract_text_from_value (JsonValue.obj (pruneObj b' fields)) content d = _
      unfold extract_text_from_value
      rw [if_neg hd, if_neg hd]
      exact extractObj_prune_eq fields content b' d (by omega)

/-- Array version of `extract_prune_eq`. -/
theorem extractArr_prune_eq (items : List JsonValue) :
    ∀ (content : List String) (b d : Nat), d + 1 + b = 11 →
      extractArr (pruneArr b items) content d = extractArr items content d := by
  intro content b d h
  cases items with
  | nil => rfl
  | cons item rest =>
    show extractArr (pruneArr b rest) (extract_text_from_value (prune b item) content (d + 1)) d = _
    rw [extract_prune_eq item content b (d + 1) (by omega)]
    exact extractArr_prune_eq rest _ b d h

/-- Object version of `extract_prune_eq` (key labels are kept by `prune`,
only the values lose budget). -/
theorem extractObj_prune_eq (fields : List (String × JsonValue)) :
    ∀ (content : List String) (b d : Nat), d + 1 + b = 11 →
      extractObj (pruneObj b fields) content d = extractObj fields content d := by
  intro content b d h
  cases fields with
  | nil => rfl
  | cons kv rest =>
    show extractObj (pruneObj b rest)
        (extract_text_from_value (prune b kv.2)
          (if commandKey kv.1 then content ++ [kv.1 ++ ": "] else content) (d + 1)) d = _
    rw [extract_prune_eq kv.2 _ b (d + 1) (by omega)]
    exact extractObj_prune_eq rest _ b d h
end

/-- C9.  Content extraction terminates (the walk is a total function, so
termination holds by construction) and is cut off at the fixed depth bound
10: a node reached at depth greater than 10 contributes nothing, the whole
extraction equals the extraction of the value truncated at the depth
horizon (silent truncation, never an error), and within the bound strings
are emitted verbatim (empty/whitespace-only dropped), numbers and booleans
are stringified, and nulls are skipped. -/
theorem c9_extraction_depth_capped (value : JsonValue) (content : List String) :
    (∀ d, 10 < d → extract_text_from_value value content d = content) ∧
    (∀ s d, d ≤ 10 →
      extract_text_from_value (JsonValue.str s) content d =
        (if trimStr s = "" then content else content ++ [s])) ∧
    (∀ n d, d ≤ 10 → extract_text_from_value (JsonValue.num n) content d = content ++ [n]) ∧
    (∀ b d, d ≤ 10 →
      extract_text_from_value (JsonValue.bool b) content d =
        content ++ [if b then "true" else "false"]) ∧
    (∀ d, d ≤ 10 → extract_text_from_value JsonValue.null content d = content) ∧
    extract_text_from_value value content 0 =
      extract_text_from_value (prune 11 value) content 0 := by
  refine ⟨?_, ?_, ?_, ?_, ?_, ?_⟩
  · intro d hd
    unfold extract_text_from_value
    rw [if_pos hd]
  · intro s d hd
    unfold extract_text_from_value
    rw [if_neg (by omega)]
  · intro n d hd
    unfold extract_text_from_value
    rw [if_neg (by omega)]
  · intro b d hd
    unfold extract_text_from_value
    rw [if_neg (by omega)]
  · intro d hd
    unfold extract_text_from_value
    rw [if_neg (by omega)]
  · exact (extract_prune_eq value content 11 0 (by norm_num)).symm

/-- Witness for C9 at concrete depths and scalars. -/
theorem c9_witness :
    extract_text_from_value (JsonValue.str "rm -rf /") ["x"] 11 = ["x"] ∧
    extract_text_from_value (JsonValue.str "rm -rf /") ["x"] 0 = ["x", "rm -rf /"] ∧
    extract_text_from_value (JsonValue.str "   ") ["x"] 0 = ["x"] ∧
    extract_text_from_value (JsonValue.num "42") ["x"] 0 = ["x", "42"] ∧
    extract_text_from_value (JsonValue.bool true) ["x"] 0 = ["x", "true"] ∧
    extract_text_from_value JsonValue.null ["x"] 0 = ["x"] := by
  refine ⟨(c9_extraction_depth_capped (JsonValue.str "rm -rf /") ["x"]).1 11 (by norm_num),
    ?_, ?_,
    (c9_extraction_depth_capped (JsonValue.num "42") ["x"]).2.2.1 "42" 0 (by norm_num),
    ?_,
    (c9_extraction_depth_capped JsonValue.null ["x"]).2.2.2.2.1 0 (by norm_num)⟩
  · rw [(c9_extraction_depth_capped (JsonValue.str "rm -rf /") ["x"]).2.1 "rm -rf /" 0 (by norm_num)]
    decide
  · rw [(c9_extraction_depth_capped (JsonValue.str "   ") ["x"]).2.1 "   " 0 (by norm_num)]
    decide
  · rw [(c9_extraction_depth_capped (JsonValue.bool true) ["x"]).2.2.2.1 true 0 (by norm_num)]
    decide

/- ===================== Orchestrator lemmas ===================== -/

/-- Distinct generation counters yield distinct finding identifiers. -/
theorem mkFindingId_injective : Function.Injective mkFindingId := by
  intro a b h
  have h3 : ("SEC-" : String).data ++ List.replicate a 'f' =
      ("SEC-" : String).data ++ List.replicate b 'f' := congrArg String.data h
  have h4 : List.replicate a 'f' = List.replicate b 'f' := List.append_cancel_left h3
  have h5 := congrArg List.length h4
  simpa using h5

/-- findingsSpec skips a request whose payload failed to parse. -/
theorem findingsSpec_cons_error (cfg : Config) (s : PromptInjectionScanner)
    (tr : ToolRequest) (rest : List ToolRequest) (e : String)
    (h : tr.tool_call = Except.error e) :
    findingsSpec cfg s (tr :: rest) = findingsSpec cfg s rest := by
  unfold findingsSpec
  rw [List.filterMap_cons, h]

/-- findingsSpec keeps a malicious above-threshold verdict. -/
theorem findingsSpec_cons_keep (cfg : Config) (s : PromptInjectionScanner)
    (tr : ToolRequest) (rest : List ToolRequest) (tc : CallToolRequestParam)
    (h : tr.tool_call = Except.ok tc)
    (hm : (scan_val s (extract_tool_content tc)).is_malicious = true)
    (hth : get_threshold_from_config cfg < (scan_val s (extract_tool_content tc)).confidence) :
    findingsSpec cfg s (tr :: rest) =
      (tr.id, (scan_val s (extract_tool_content tc)).is_malicious,
       (scan_val s (extract_tool_content tc)).confidence,
       (scan_val s (extract_tool_content tc)).explanation, true) :: findingsSpec cfg s rest := by
  unfold findingsSpec
  rw [List.filterMap_cons, h]
  simp only [hm, decide_eq_true hth, Bool.and_self, if_true]

/-- findingsSpec drops a benign or below-threshold verdict. -/
theorem findingsSpec_cons_drop (cfg : Config) (s : PromptInjectionScanner)
    (tr : ToolRequest) (rest : List ToolRequest) (tc : CallToolRequestParam)
    (h : tr.tool_call = Except.ok tc)
    (hd : (scan_val s (extract_tool_content tc)).is_malicious = false ∨
      ¬ (get_threshold_from_config cfg < (scan_val s (extract_tool_content tc)).confidence)) :
    findingsSpec cfg s (tr :: rest) = findingsSpec cfg s rest := by
  unfold findingsSpec
  rw [List.filterMap_cons, h]
  cases hd with
  | inl h1 => simp only [h1, Bool.false_and, Bool.false_eq_true, if_false]
  | inr h2 => simp only [decide_eq_false h2, Bool.and_false, Bool.false_eq_true, if_false]

/-- Full characterization of the per-request loop: it never fails, its
output projects to the spec-worded findings list, and its finding ids come
from strictly increasing generation counters at or above the start
counter. -/
theorem analyzeLoop_characterization (cfg : Config) (s : PromptInjectionScanner)
    (msgs : List Message) :
    ∀ (reqs : List ToolRequest) (k : Nat),
      ∃ out, analyzeLoop cfg s msgs reqs k = Except.ok out ∧
        out.map (fun r => (r.tool_request_id, r.is_malicious, r.confidence,
          r.explanation, r.should_ask_user)) = findingsSpec cfg s reqs ∧
        ∃ ks : List Nat, out.map SecurityResult.finding_id = ks.map mkFindingId ∧
          ks.Pairwise (· < ·) ∧ ∀ j ∈ ks, k ≤ j := by
  intro reqs
  induction reqs with
  | nil =>
    intro k
    exact ⟨[], rfl, rfl, [], rfl, List.Pairwise.nil, by simp⟩
  | cons tr rest ih =>
    intro k
    cases htc : tr.tool_call with
    | error e =>
      obtain ⟨out, hout, hproj, ks, hids, hpw, hge⟩ := ih k
      refine ⟨out, ?_, ?_, ks, hids, hpw, hge⟩
      · simp only [analyzeLoop, htc]
        exact hout
      · rw [hproj, findingsSpec_cons_error cfg s tr rest e htc]
    | ok tc =>
      by_cases hm : (scan_val s (extract_tool_content tc)).is_malicious = true
      · by_cases hth :
          (scan_val s (extract_tool_content tc)).confidence > get_threshold_from_config cfg
        · obtain ⟨out, hout, hproj, ks, hids, hpw, hge⟩ := ih (k + 1)
          refine ⟨{ is_malicious := (scan_val s (extract_tool_content tc)).is_malicious,
                    confidence := (scan_val s (extract_tool_content tc)).confidence,
                    explanation := (scan_val s (extract_tool_content tc)).explanation,
                    should_ask_user := true,
                    finding_id := mkFindingId k,
                    tool_request_id := tr.id } :: out, ?_, ?_, k :: ks, ?_, ?_, ?_⟩
          · simp only [analyzeLoop, htc, analyze_ctx_eq_ok, hm, if_true, if_pos hth, hout]
          · simp only [List.map_cons, hm]
            rw [hproj, findingsSpec_cons_keep cfg s tr rest tc htc hm hth, hm]
          · simp only [List.map_cons, hids]
          · rw [List.pairwise_cons]
            exact ⟨fun j hj => Nat.lt_of_succ_le (hge j hj), hpw⟩
          · intro j hj
            rcases List.mem_cons.mp hj with hj1 | hj2
            · omega
            · exact Nat.le_of_succ_le (hge j hj2)
        · obtain ⟨out, hout, hproj, ks, hids, hpw, hge⟩ := ih (k + 1)
          refine ⟨out, ?_, ?_, ks, hids, hpw, fun j hj => Nat.le_of_succ_le (hge j hj)⟩
          · simp only [analyzeLoop, htc, analyze_ctx_eq_ok, hm, if_true, if_neg hth]
            exact hout
          · rw [hproj, findingsSpec_cons_drop cfg s tr rest tc htc (Or.inr hth)]
      · obtain ⟨out, hout, hproj, ks, hids, hpw, hge⟩ := ih k
        have hm' : (scan_val s (extract_tool_content tc)).is_malicious = false :=
          Bool.not_eq_true _ ▸ Bool.eq_false_iff.mpr (fun hh => hm hh)
        refine ⟨out, ?_, ?_, ks, hids, hpw, hge⟩
        · simp only [analyzeLoop, htc, analyze_ctx_eq_ok, hm', Bool.false_eq_true, if_false]
          exact hout
        · rw [hproj, findingsSpec_cons_drop cfg s tr rest tc htc (Or.inl hm')]

/-- C3.  With scanning enabled, the returned findings are exactly the
spec-worded list: one per parsed tool call whose verdict is malicious with
confidence strictly above the configured threshold, in input order,
carrying the originating tool-request id and should_ask_user = true, with
parse failures skipped and below-or-equal-threshold verdicts dropped; and
the generated finding identifiers are pairwise distinct (fresh). -/
theorem c3_findings_exact (cfg : Config) (s : PromptInjectionScanner)
    (reqs : List ToolRequest) (msgs : List Message) (out : List SecurityResult)
    (hen : is_prompt_injection_detection_enabled cfg = true)
    (hout : analyze_tool_requests cfg s reqs msgs = Except.ok out) :
    out.map (fun r => (r.tool_request_id, r.is_malicious, r.confidence,
      r.explanation, r.should_ask_user)) = findingsSpec cfg s reqs ∧
    (out.map SecurityResult.finding_id).Nodup := by
  have h0 : analyzeLoop cfg s msgs reqs 0 = Except.ok out := by
    unfold analyze_tool_requests at hout
    rw [hen] at hout
    simpa using hout
  obtain ⟨out', hout', hproj, ks, hids, hpw, _⟩ := analyzeLoop_characterization cfg s msgs reqs 0
  rw [h0] at hout'
  cases Except.ok.inj hout'
  refine ⟨hproj, ?_⟩
  rw [hids]
  have hnd : ks.Nodup := List.Pairwise.imp (fun hab => Nat.ne_of_lt hab) hpw
  exact hnd.map mkFindingId_injective

/- ===================== C6 ===================== -/

/-- C6.  When the scanning-enabled flag is false or unset (it defaults to
disabled), analyze returns an empty finding list for every batch,
independently of the scanner (which the disabled branch never touches) and
of the batch contents. -/
theorem c6_disabled_returns_empty (cfg : Config) (s : PromptInjectionScanner)
    (reqs : List ToolRequest) (msgs : List Message)
    (h : is_prompt_injection_detection_enabled cfg = false) :
    analyze_tool_requests cfg s reqs msgs = Except.ok [] := by
  unfold analyze_tool_requests
  rw [h]
  simp

/-- Witness for C6: with every key unset, a batch containing an `rm -rf /`
tool call produces no findings. -/
theorem c6_witness :
    analyze_tool_requests cfgUnset mlScannerSixTenths [rmRfRequest] [] = Except.ok [] :=
  c6_disabled_returns_empty cfgUnset mlScannerSixTenths [rmRfRequest] [] rfl

/- ===================== C10 ===================== -/

/-- Every result the loop emits is a malicious verdict above the
configured threshold, marked for user review. -/
theorem analyzeLoop_member_invariants (cfg : Config) (s : PromptInjectionScanner)
    (msgs : List Message) :
    ∀ (reqs : List ToolRequest) (k : Nat) (out : List SecurityResult),
      analyzeLoop cfg s msgs reqs k = Except.ok out →
      ∀ r ∈ out, r.is_malicious = true ∧ r.should_ask_user = true ∧
        (1:ℚ)/2 ≤ r.confidence ∧ get_threshold_from_config cfg < r.confidence := by
  intro reqs
  induction reqs with
  | nil =>
    intro k out hout r hr
    simp only [analyzeLoop] at hout
    cases Except.ok.inj hout
    simp at hr
  | cons tr rest ih =>
    intro k out hout r hr
    cases htc : tr.tool_call with
    | error e =>
      simp only [analyzeLoop, htc] at hout
      exact ih k out hout r hr
    | ok tc =>
      by_cases hm : (scan_val s (extract_tool_content tc)).is_malicious = true
      · by_cases hth :
          (scan_val s (extract_tool_content tc)).confidence > get_threshold_from_config cfg
        · simp only [analyzeLoop, htc, analyze_ctx_eq_ok, hm, if_true, if_pos hth] at hout
          cases hrec : analyzeLoop cfg s msgs rest (k + 1) with
          | error e2 => rw [hrec] at hout; cases hout
          | ok out' =>
            rw [hrec] at hout
            cases Except.ok.inj hout
            rcases List.mem_cons.mp hr with hr1 | hr2
            · subst hr1
              have hc : (1:ℚ)/2 ≤ (scan_val s (extract_tool_content tc)).confidence := by
                have hb := scan_val_malicious s (extract_tool_content tc)
                rw [hm] at hb
                exact of_decide_eq_true hb.symm
              exact ⟨rfl, rfl, hc, hth⟩
            · exact ih (k + 1) out' hrec r hr2
        · simp only [analyzeLoop, htc, analyze_ctx_eq_ok, hm, if_true, if_neg hth] at hout
          exact ih (k + 1) out hout r hr
      · have hm' : (scan_val s (extract_tool_content tc)).is_malicious = false :=
          Bool.eq_false_iff.mpr (fun hh => hm hh)
        simp only [analyzeLoop, htc, analyze_ctx_eq_ok, hm', Bool.false_eq_true, if_false] at hout
        exact ih k out hout r hr

/-- C10.  The malicious flag of every verdict is decided against the fixed
constant 0.5, independently of the configured threshold; every
SecurityResult returned by analyze is malicious, marked should_ask_user,
with confidence at least 0.5 and strictly above the configured threshold;
with the threshold key unset the threshold is 0.7, so a verdict with
confidence in [0.5, 0.7] is classified malicious yet yields no finding
(every returned finding has confidence strictly above 0.7). -/
theorem c10_fixed_half_and_findings_above_threshold
    (cfg : Config) (s : PromptInjectionScanner) (text : String) (p : ℚ) (ml : Option ℚ)
    (reqs : List ToolRequest) (msgs : List Message) (out : List SecurityResult)
    (hout : analyze_tool_requests cfg s reqs msgs = Except.ok out) :
    (∀ r, combine_results s text p ml = Except.ok r →
      (r.is_malicious = true ↔ (1:ℚ)/2 ≤ r.confidence)) ∧
    (∀ r ∈ out, r.is_malicious = true ∧ r.should_ask_user = true ∧
      (1:ℚ)/2 ≤ r.confidence ∧ get_threshold_from_config cfg < r.confidence) ∧
    (cfg.security_prompt_threshold = none →
      get_threshold_from_config cfg = 7/10 ∧ ∀ r ∈ out, 7/10 < r.confidence) := by
  have hmain : ∀ r ∈ out, r.is_malicious = true ∧ r.should_ask_user = true ∧
      (1:ℚ)/2 ≤ r.confidence ∧ get_threshold_from_config cfg < r.confidence := by
    by_cases hen : is_prompt_injection_detection_enabled cfg = true
    · have h0 : analyzeLoop cfg s msgs reqs 0 = Except.ok out := by
        unfold analyze_tool_requests at hout
        rw [hen] at hout
        simpa using hout
      exact analyzeLoop_member_invariants cfg s msgs reqs 0 out h0
    · have hen' : is_prompt_injection_detection_enabled cfg = false :=
        Bool.eq_false_iff.mpr (fun hh => hen hh)
      rw [c6_disabled_returns_empty cfg s reqs msgs hen'] at hout
      cases Except.ok.inj hout
      intro r hr
      simp at hr
  refine ⟨?_, hmain, ?_⟩
  · intro r hcr
    have hr : r = combine_results_val s text p ml := (Except.ok.inj hcr).symm
    subst hr
    rw [combine_val_malicious]
    simp [decide_eq_true_eq]
  · intro hnone
    have hthr : get_threshold_from_config cfg = 7/10 := by
      unfold get_threshold_from_config
      rw [hnone]
    refine ⟨hthr, fun r hr => ?_⟩
    have := (hmain r hr).2.2.2
    rw [hthr] at this
    exact this

/- ===================== Concrete batch evaluations ===================== -/

/-- Extraction of the benign tool call's content. -/
theorem extract_ls :
    extract_tool_content { name := "shell", arguments := some [("command", JsonValue.str "echo hi")] } =
      "Tool: shell\ncommand: \necho hi" := by decide

/-- The modelled catalogue finds nothing in the benign tool content. -/
theorem scan_text_ls :
    defaultPatternMatcher.scan_text "Tool: shell\ncommand: \necho hi" = [] := by decide

/-- The pattern-only scanner finds the benign tool call benign. -/
theorem scan_val_ls_benign :
    (scan_val patternOnlyScanner
      (extract_tool_content { name := "shell", arguments := some [("command", JsonValue.str "echo hi")] })).is_malicious = false := by
  rw [scan_val_malicious]
  have hconf : (scan_val patternOnlyScanner
      (extract_tool_content { name := "shell", arguments := some [("command", JsonValue.str "echo hi")] })).confidence = 0 := by
    rw [scan_val_conf]
    have hml : ml_confidence_of patternOnlyScanner
        (extract_tool_content { name := "shell", arguments := some [("command", JsonValue.str "echo hi")] }) = none := rfl
    rw [hml]
    refine scan_with_patterns_eq_zero _ _ ?_
    rw [extract_ls]
    exact scan_text_ls
  rw [hconf]
  simp only [decide_eq_false_iff_not]
  norm_num

/-- Analyze of the benign batch with the pattern-only scanner: no
findings. -/
theorem analyze_ls_empty :
    analyze_tool_requests cfgEnabledDefault patternOnlyScanner [lsRequest] [] = Except.ok [] := by
  unfold analyze_tool_requests
  rw [show is_prompt_injection_detection_enabled cfgEnabledDefault = true from rfl]
  simp only [if_true]
  simp only [analyzeLoop,
    show lsRequest.tool_call =
      Except.ok { name := "shell", arguments := some [("command", JsonValue.str "echo hi")] } from rfl,
    analyze_ctx_eq_ok, scan_val_ls_benign, Bool.false_eq_true, if_false]

/-- The 0.6-classifier scanner declares the benign tool call malicious at
confidence 0.6. -/
theorem scan_val_ls_ml_conf :
    (scan_val mlScannerSixTenths
      (extract_tool_content { name := "shell", arguments := some [("command", JsonValue.str "echo hi")] })).confidence = 3/5 := by
  rw [scan_val_conf]
  have hml : ml_confidence_of mlScannerSixTenths
      (extract_tool_content { name := "shell", arguments := some [("command", JsonValue.str "echo hi")] }) = some (3/5) := rfl
  rw [hml]
  show max (scan_with_patterns mlScannerSixTenths
    (extract_tool_content { name := "shell", arguments := some [("command", JsonValue.str "echo hi")] })) (3/5) = 3/5
  rw [scan_with_patterns_eq_zero _ _ (by rw [extract_ls]; exact scan_text_ls)]
  norm_num

/-- Analyze of the benign batch with the 0.6 classifier and the default
0.7 threshold: the verdict is malicious (0.6 ≥ 0.5) but below threshold,
so no finding is returned. -/
theorem analyze_ls_ml_empty :
    analyze_tool_requests cfgEnabledDefault mlScannerSixTenths [lsRequest] [] = Except.ok [] := by
  unfold analyze_tool_requests
  rw [show is_prompt_injection_detection_enabled cfgEnabledDefault = true from rfl]
  simp only [if_true]
  have hm : (scan_val mlScannerSixTenths
      (extract_tool_content { name := "shell", arguments := some [("command", JsonValue.str "echo hi")] })).is_malicious = true := by
    rw [scan_val_malicious, scan_val_ls_ml_conf]
    simp only [decide_eq_true_eq]
    norm_num
  have hth : ¬ ((scan_val mlScannerSixTenths
      (extract_tool_content { name := "shell", arguments := some [("command", JsonValue.str "echo hi")] })).confidence >
        get_threshold_from_config cfgEnabledDefault) := by
    rw [scan_val_ls_ml_conf]
    show ¬ ((3:ℚ)/5 > 7/10)
    norm_num
  simp only [analyzeLoop,
    show lsRequest.tool_call =
      Except.ok { name := "shell", arguments := some [("command", JsonValue.str "echo hi")] } from rfl,
    analyze_ctx_eq_ok, hm, if_true, if_neg hth]

/- ===================== Remaining witnesses ===================== -/

/-- Witness for C5 at concrete confidences. -/
theorem c5_witness :
    (combine_results_val patternOnlyScanner "t" (3/10) (some (3/5))).confidence = max (3/10) (3/5) ∧
    (3:ℚ)/10 ≤ (combine_results_val patternOnlyScanner "t" (3/10) (some (3/5))).confidence ∧
    (3:ℚ)/5 ≤ (combine_results_val patternOnlyScanner "t" (3/10) (some (3/5))).confidence := by
  have h := c5_fusion_pure_max patternOnlyScanner "t" (3/10) (some (3/5)) _ rfl
  exact ⟨h.1 _ rfl, h.2.2.1, h.2.2.2.1 _ rfl⟩

/-- Witness for C8: a well-formed 200 response with two scores succeeds
with the softmax of those scores. -/
theorem c8_witness :
    mlDetectorScan (fun q => q) (fun _ => some overflowResponse)
      (GondolaOutcome.httpResponse 200 "x") =
      Except.ok (softmaxMalicious (fun q => q) 1000 (10001/10)) :=
  (c8_error_cases_exact (fun q => q) (fun _ => some overflowResponse)
      (GondolaOutcome.httpResponse 200 "x")).2 200 "x" overflowResponse
      { double_list_value := some { double_values := [1000, 10001/10] } }
      { double_values := [1000, 10001/10] } 1000 (10001/10) [] rfl (by decide) rfl rfl rfl rfl

/-- Witness for C10: with the default threshold, a classifier confidence
of 0.6 is flagged malicious (0.6 ≥ 0.5) yet the batch yields no finding
(0.6 is not above 0.7). -/
theorem c10_witness :
    ((scan_val mlScannerSixTenths "hello").is_malicious = true ↔
      (1:ℚ)/2 ≤ (scan_val mlScannerSixTenths "hello").confidence) ∧
    (get_threshold_from_config cfgEnabledDefault = 7/10 ∧
      ∀ r ∈ ([] : List SecurityResult), 7/10 < r.confidence) := by
  have h := c10_fixed_half_and_findings_above_threshold cfgEnabledDefault mlScannerSixTenths
    "hello" (scan_with_patterns mlScannerSixTenths "hello")
    (ml_confidence_of mlScannerSixTenths "hello") [lsRequest] [] [] analyze_ls_ml_empty
  exact ⟨h.1 _ rfl, h.2.2 rfl⟩

/- ===================== End-to-end rm-rf scenario ===================== -/

/-- The explanation of a scan verdict, keyed on zero confidence. -/
theorem scan_val_explanation_eq (s : PromptInjectionScanner) (text : String) :
    (scan_val s text).explanation =
      (if (scan_val s text).confidence = 0 then
        "No security threats detected"
      else
        joinSep "\n\n"
          ((if scan_with_patterns s text > 0 then
              [patternSummaryFor s text (scan_with_patterns s text)]
            else []) ++
           (match ml_confidence_of s text with
            | some ml_conf => ["ML-based detection (confidence: " ++ fmt2 ml_conf ++ ")"]
            | none => []))) :=
  combine_val_explanation_eq s text (scan_with_patterns s text) (ml_confidence_of s text)

/-- Rendering of the Critical-tier confidence. -/
theorem fmt2_nineteen_twentieths : fmt2 (19/20) = "0.95" := by
  unfold fmt2
  rw [show (19:ℚ)/20 * 100 = 95 by norm_num]
  rw [show round ((95:ℚ)) = (95:ℤ) by simp]
  decide

/-- Extraction of the rm-rf tool call's content. -/
theorem extract_rmrf :
    extract_tool_content { name := "shell", arguments := some [("command", JsonValue.str "rm -rf /")] } =
      "Tool: shell\ncommand: \nrm -rf /" := by decide

/-- The modelled catalogue finds exactly the recursive-deletion signature
in the rm-rf tool content. -/
theorem scan_text_rmrf :
    defaultPatternMatcher.scan_text "Tool: shell\ncommand: \nrm -rf /" =
      [rmRfMatch] := by decide

/-- Pattern confidence of the rm-rf content: the Critical score. -/
theorem scan_with_patterns_rmrf :
    scan_with_patterns patternOnlyScanner "Tool: shell\ncommand: \nrm -rf /" = 19/20 := by
  unfold scan_with_patterns
  rw [show patternOnlyScanner.pattern_matcher.scan_text "Tool: shell\ncommand: \nrm -rf /" =
    [rmRfMatch] from scan_text_rmrf]
  rfl

/-- Scan confidence of the rm-rf content. -/
theorem scan_val_conf_rmrf :
    (scan_val patternOnlyScanner "Tool: shell\ncommand: \nrm -rf /").confidence = 19/20 := by
  rw [scan_val_conf]
  rw [show ml_confidence_of patternOnlyScanner "Tool: shell\ncommand: \nrm -rf /" = none from rfl]
  exact scan_with_patterns_rmrf

/-- The rm-rf verdict is malicious. -/
theorem scan_val_malicious_rmrf :
    (scan_val patternOnlyScanner "Tool: shell\ncommand: \nrm -rf /").is_malicious = true := by
  rw [scan_val_malicious, scan_val_conf_rmrf]
  simp only [decide_eq_true_eq]
  norm_num

/-- The rm-rf verdict's explanation names the fired signature. -/
theorem scan_val_explanation_rmrf :
    (scan_val patternOnlyScanner "Tool: shell\ncommand: \nrm -rf /").explanation =
      "Pattern-based detection (confidence: 0.95):\n1. Recursive file deletion (Risk: Critical) - Found: 'rm -rf'" := by
  rw [scan_val_explanation_eq]
  rw [if_neg (by rw [scan_val_conf_rmrf]; norm_num)]
  rw [show ml_confidence_of patternOnlyScanner "Tool: shell\ncommand: \nrm -rf /" = none from rfl]
  rw [scan_with_patterns_rmrf]
  rw [if_pos (by norm_num : (19:ℚ)/20 > 0)]
  show joinSep "\n\n" [patternSummaryFor patternOnlyScanner "Tool: shell\ncommand: \nrm -rf /" (19/20)] = _
  simp only [joinSep]
  unfold patternSummaryFor
  rw [show patternOnlyScanner.pattern_matcher.scan_text "Tool: shell\ncommand: \nrm -rf /" =
    [rmRfMatch] from scan_text_rmrf]
  rw [fmt2_nineteen_twentieths]
  decide

/-- The rm-rf verdict facts transported to the extracted-content form. -/
theorem scan_val_malicious_rmrf_ext :
    (scan_val patternOnlyScanner
      (extract_tool_content { name := "shell", arguments := some [("command", JsonValue.str "rm -rf /")] })).is_malicious = true := by
  rw [extract_rmrf]
  exact scan_val_malicious_rmrf

/-- Threshold comparison for the rm-rf verdict, extracted-content form. -/
theorem scan_val_above_threshold_rmrf_ext :
    (scan_val patternOnlyScanner
      (extract_tool_content { name := "shell", arguments := some [("command", JsonValue.str "rm -rf /")] })).confidence >
      get_threshold_from_config cfgEnabledDefault := by
  rw [extract_rmrf, scan_val_conf_rmrf]
  show (19:ℚ)/20 > 7/10
  norm_num

/-- End-to-end: scanning enabled, classifier absent, default threshold;
the rm-rf batch yields exactly the expected finding. -/
theorem analyze_rmrf :
    analyze_tool_requests cfgEnabledDefault patternOnlyScanner [rmRfRequest] [] =
      Except.ok [rmRfFinding] := by
  unfold analyze_tool_requests
  rw [show is_prompt_injection_detection_enabled cfgEnabledDefault = true from rfl]
  simp only [if_true]
  simp only [analyzeLoop,
    show rmRfRequest.tool_call =
      Except.ok { name := "shell", arguments := some [("command", JsonValue.str "rm -rf /")] } from rfl,
    analyze_ctx_eq_ok, scan_val_malicious_rmrf_ext, if_true,
    if_pos scan_val_above_threshold_rmrf_ext]
  rw [show rmRfRequest.id = "req-1" from rfl]
  rw [show (scan_val patternOnlyScanner
      (extract_tool_content { name := "shell", arguments := some [("command", JsonValue.str "rm -rf /")] })).confidence = 19/20 from by rw [extract_rmrf]; exact scan_val_conf_rmrf]
  rw [show (scan_val patternOnlyScanner
      (extract_tool_content { name := "shell", arguments := some [("command", JsonValue.str "rm -rf /")] })).explanation =
      "Pattern-based detection (confidence: 0.95):\n1. Recursive file deletion (Risk: Critical) - Found: 'rm -rf'" from by rw [extract_rmrf]; exact scan_val_explanation_rmrf]
  rfl

/-- Witness for C3: the end-to-end rm-rf batch produces exactly one
finding matching the spec-worded list, and the benign batch produces
none. -/
theorem c3_witness :
    (([rmRfFinding].map (fun r => (r.tool_request_id, r.is_malicious, r.confidence,
        r.explanation, r.should_ask_user)) =
          findingsSpec cfgEnabledDefault patternOnlyScanner [rmRfRequest] ∧
      ([rmRfFinding].map SecurityResult.finding_id).Nodup)) ∧
    (([] : List SecurityResult).map (fun r => (r.tool_request_id, r.is_malicious, r.confidence,
        r.explanation, r.should_ask_user)) =
          findingsSpec cfgEnabledDefault patternOnlyScanner [lsRequest] ∧
      (([] : List SecurityResult).map SecurityResult.finding_id).Nodup) :=
  ⟨c3_findings_exact cfgEnabledDefault patternOnlyScanner [rmRfRequest] [] [rmRfFinding] rfl analyze_rmrf,
   c3_findings_exact cfgEnabledDefault patternOnlyScanner [lsRequest] [] [] rfl analyze_ls_empty⟩
